import Mathlib

/-!
Verification of the signal-to-decision pipeline of the Pocket Option bot
repository.  The JavaScript sources are shallowly embedded: JS numbers are
modelled as `ℚ` (the code only uses +, *, /, comparisons, `Math.round`,
`Math.floor`, `Math.min`, `Math.max` on values where binary rounding is not
the point of any claim), `null`/missing fields as `Option`, and fallible
paths as `Except`.  Each definition mirrors one function of the source,
named after it.
-/

/-- JS `Math.round` on a rational: round half towards positive infinity
(`Math.round(x) = ⌊x + 0.5⌋` for every finite JS number). -/
def jround (x : ℚ) : ℤ := ⌊x + 1 / 2⌋

/-- `Math.round(x * 100) / 100` — round to 2 decimal places, as used by
`RiskManager.calculatePositionSize` and `RiskManager.calculateMartingaleStep`. -/
def round2 (x : ℚ) : ℚ := (jround (x * 100) : ℚ) / 100

/-- `Math.floor(x * 100) / 100` — truncation to 2 decimals used by the legacy
`getNextMartingaleStep` in `web_accessible_resources.beautified.js`. -/
def floor2 (x : ℚ) : ℚ := (⌊x * 100⌋ : ℚ) / 100

theorem jround_mono {x y : ℚ} (h : x ≤ y) : jround x ≤ jround y :=
  Int.floor_mono (by linarith)

theorem round2_mono {x y : ℚ} (h : x ≤ y) : round2 x ≤ round2 y := by
  have hz : jround (x * 100) ≤ jround (y * 100) := jround_mono (by linarith)
  have hq : ((jround (x * 100) : ℚ)) ≤ ((jround (y * 100) : ℚ)) := by exact_mod_cast hz
  unfold round2
  linarith

theorem jround_eq_iff {x : ℚ} {z : ℤ} :
    jround x = z ↔ (z : ℚ) ≤ x + 1 / 2 ∧ x + 1 / 2 < z + 1 := by
  unfold jround
  exact Int.floor_eq_iff

/-- Evaluation helper: `round2 x = z / 100` follows from the two rational
inequalities pinning `⌊x * 100 + 1/2⌋` to `z`. -/
theorem round2_eq {x : ℚ} (z : ℤ) (h1 : (z : ℚ) ≤ x * 100 + 1 / 2)
    (h2 : x * 100 + 1 / 2 < z + 1) : round2 x = (z : ℚ) / 100 := by
  rw [round2, jround_eq_iff.mpr ⟨h1, h2⟩]

/-- `config` of `RiskManager` (part_002), restricted to the fields the
risk-assessment and martingale paths read. -/
structure RiskConfig where
  maxDailyLoss : ℚ
  maxTradeAmount : ℚ
  maxConcurrentTrades : ℕ
  maxRiskPerTrade : ℚ
  accountRiskLimit : ℚ
  martingaleEnabled : Bool
  maxMartingaleLevels : ℕ
  martingaleMultiplier : ℚ
  confidenceThreshold : ℚ
  deriving DecidableEq

/-- The default `config` object of the `RiskManager` constructor. -/
def defaultRiskConfig : RiskConfig :=
  { maxDailyLoss := 100
    maxTradeAmount := 50
    maxConcurrentTrades := 5
    maxRiskPerTrade := 2
    accountRiskLimit := 10
    martingaleEnabled := true
    maxMartingaleLevels := 5
    martingaleMultiplier := 2
    confidenceThreshold := 70 }

/-- `this.accountData` of `RiskManager`.  `lastReset` is an epoch-ms
timestamp (`Date.now()`), modelled as `ℤ`. -/
structure AccountData where
  balance : ℚ
  dailyPL : ℚ
  dailyTrades : ℕ
  maxDailyBalance : ℚ
  lastReset : ℤ
  deriving DecidableEq

/-- The mutable risk state touched by `resetDailyMetrics`: the account data
plus the set of currently open trades (`this.activeTrades`, modelled by the
list of trade ids it holds). -/
structure RiskState where
  accountData : AccountData
  activeTrades : List ℕ
  deriving DecidableEq

/-- `tradeParams` as consumed by `validateTradeParams` /
`calculatePositionSize` (fields the checked code reads; `null`/missing is
`none`). -/
structure TradeParams where
  action : Option String
  asset : Option String
  amount : ℚ
  deriving DecidableEq

/-- `additionalContext` of `assessTradeRisk` / `calculatePositionSize`.
A JS-falsy (absent or zero) field skips its adjustment, which the
definitions below test explicitly. -/
structure TradeContext where
  confidence : Option ℚ
  volatility : Option ℚ
  deriving DecidableEq

/-- `RiskManager.resetDailyMetrics` (part_002 lines 67-78): when more than
24 hours (in ms) have elapsed since `lastReset`, zero `dailyPL` and
`dailyTrades` and stamp `lastReset := now`; otherwise leave the account
data untouched. -/
def resetDailyMetrics (now : ℤ) (a : AccountData) : AccountData :=
  if 24 * 60 * 60 * 1000 < now - a.lastReset then
    { a with dailyPL := 0, dailyTrades := 0, lastReset := now }
  else
    a

/-- `resetDailyMetrics` acting on the whole risk state: the method body
assigns only `accountData` fields, so `activeTrades` is carried over. -/
def resetDailyMetricsState (now : ℤ) (st : RiskState) : RiskState :=
  { st with accountData := resetDailyMetrics now st.accountData }

/-- `RiskManager.validateTradeParams` (part_002 lines 154-186).  Returns
`some reason` when invalid (the source returns `{valid:false, reason}`),
`none` when valid. -/
def validateTradeParams (cfg : RiskConfig) (p : TradeParams) : Option String :=
  if ¬ (p.action = some "CALL" ∨ p.action = some "PUT") then
    some "Invalid or missing action parameter"
  else if p.asset = none then
    some "Missing asset parameter"
  else if p.amount ≤ 0 then
    some "Invalid or missing amount parameter"
  else if cfg.maxTradeAmount < p.amount then
    some ("Trade amount exceeds maximum of " ++ toString cfg.maxTradeAmount)
  else
    none

/-- `RiskManager.calculatePositionSize` (part_002 lines 191-225).  A JS-falsy
`additionalContext.confidence` (absent or `0`) skips the confidence
multiplier; same for `volatility`.  The two percentage caps are applied in
sequence, the result is rounded to 2 decimals and floored at the minimum
stake of 1.  Note the source applies no `maxTradeAmount` cap here. -/
def calculatePositionSize (cfg : RiskConfig) (acct : AccountData)
    (p : TradeParams) (ctx : TradeContext) : ℚ :=
  let ps0 := p.amount
  let ps1 :=
    match ctx.confidence with
    | some c => if c = 0 then ps0 else ps0 * max (1 / 2) (min (3 / 2) (c / 100))
    | none => ps0
  let maxRiskAmount := cfg.maxRiskPerTrade / 100 * acct.balance
  let ps2 := if maxRiskAmount < ps1 then maxRiskAmount else ps1
  let accountRiskAmount := cfg.accountRiskLimit / 100 * acct.balance
  let ps3 := if accountRiskAmount < ps2 then accountRiskAmount else ps2
  let ps4 :=
    match ctx.volatility with
    | some v => if v = 0 then ps3 else ps3 * (1 / (1 + v))
    | none => ps3
  max 1 (round2 ps4)

/-- `RiskManager.checkAccountLimits` (part_002 lines 230-252), projected to
its rejection reason (`none` = approved). -/
def checkAccountLimits (a : AccountData) (positionSize : ℚ) : Option String :=
  if a.balance ≤ 0 then
    some "Insufficient account balance"
  else if a.balance < positionSize then
    some "Position size exceeds account balance"
  else
    none

/-- `RiskManager.checkDailyLimits` (part_002 lines 257-283).  The daily-loss
check runs before the hard-coded 50-trades-per-day check. -/
def checkDailyLimits (cfg : RiskConfig) (a : AccountData) : Option String :=
  let dailyLossLimit := cfg.maxDailyLoss / 100 * a.maxDailyBalance
  if a.dailyPL < -dailyLossLimit then
    some "Daily loss limit reached"
  else if 50 ≤ a.dailyTrades then
    some "Daily trade limit reached"
  else
    none

/-- `RiskManager.checkConcurrentTrades` (part_002 lines 288-303). -/
def checkConcurrentTrades (cfg : RiskConfig) (activeTradeCount : ℕ) : Option String :=
  if cfg.maxConcurrentTrades ≤ activeTradeCount then
    some ("Maximum concurrent trades (" ++ toString cfg.maxConcurrentTrades ++ ") reached")
  else
    none

/-- `riskMetrics` fields of `RiskManager.calculateRiskMetrics` that the
approval logic reads. -/
structure RiskMetrics where
  riskAmount : ℚ
  potentialReward : ℚ
  riskPercentage : ℚ
  dailyRiskPercentage : ℚ
  riskLevel : String
  maxDrawdown : ℚ
  deriving DecidableEq

/-- `RiskManager.calculateMaxDrawdown` (part_002 lines 552-575), with the
trade history reduced to its list of realized profits. -/
def calculateMaxDrawdown (a : AccountData) (tradeHistory : List ℚ) : ℚ :=
  if tradeHistory.length < 2 then 0
  else
    (tradeHistory.foldl
      (fun s profit =>
        let current := s.2.1 + profit
        let maxB := if s.1 < current then current else s.1
        let drawdown := (maxB - current) / maxB * 100
        (maxB, current, max s.2.2 drawdown))
      (a.balance, a.balance, 0)).2.2

/-- `RiskManager.calculateRiskMetrics` (part_002 lines 308-332). -/
def calculateRiskMetrics (a : AccountData) (positionSize : ℚ)
    (tradeHistory : List ℚ) : RiskMetrics :=
  let riskAmount := positionSize
  let potentialReward := positionSize * (8 / 10)
  let riskPercentage := riskAmount / a.balance * 100
  let dailyRiskPercentage := riskAmount / a.maxDailyBalance * 100
  let riskLevel :=
    if 5 < riskPercentage ∨ 15 < dailyRiskPercentage then "high"
    else if 2 < riskPercentage ∨ 8 < dailyRiskPercentage then "medium"
    else "low"
  { riskAmount := riskAmount
    potentialReward := potentialReward
    riskPercentage := riskPercentage
    dailyRiskPercentage := dailyRiskPercentage
    riskLevel := riskLevel
    maxDrawdown := calculateMaxDrawdown a tradeHistory }

/-- `RiskManager.checkOverallRisk` (part_002 lines 337-361), projected to its
rejection reason. -/
def checkOverallRisk (m : RiskMetrics) : Option String :=
  if m.riskLevel = "high" then
    some "Overall risk level too high"
  else if 20 < m.dailyRiskPercentage then
    some "Account risk concentration too high"
  else
    none

/-- The projection of the object returned by `RiskManager.assessTradeRisk`
that the claims are about. -/
structure Assessment where
  approved : Bool
  reason : Option String
  positionSize : Option ℚ
  deriving DecidableEq

/-- `RiskManager.assessTradeRisk` (part_002 lines 83-149): reset daily
metrics, then run the linear checklist — parameter validation, position
sizing, account limits, daily limits, concurrency, overall risk — where the
first failing check returns its own reason. -/
def assessTradeRisk (cfg : RiskConfig) (acct : AccountData)
    (activeTradeCount : ℕ) (tradeHistory : List ℚ) (now : ℤ)
    (p : TradeParams) (ctx : TradeContext) : Assessment :=
  let a := resetDailyMetrics now acct
  match validateTradeParams cfg p with
  | some reason => { approved := false, reason := some reason, positionSize := none }
  | none =>
    let positionSize := calculatePositionSize cfg a p ctx
    match checkAccountLimits a positionSize with
    | some reason => { approved := false, reason := some reason, positionSize := none }
    | none =>
      match checkDailyLimits cfg a with
      | some reason => { approved := false, reason := some reason, positionSize := none }
      | none =>
        match checkConcurrentTrades cfg activeTradeCount with
        | some reason => { approved := false, reason := some reason, positionSize := none }
        | none =>
          let riskMetrics := calculateRiskMetrics a positionSize tradeHistory
          match checkOverallRisk riskMetrics with
          | some reason => { approved := false, reason := some reason, positionSize := none }
          | none => { approved := true, reason := none, positionSize := some positionSize }

/-- `RiskManager.calculateMartingaleStep` (part_002 lines 439-465): disabled
martingale or a step index at/past `maxMartingaleLevels` returns the
original amount; otherwise the base amount is multiplied `currentStep`
times by the configured multiplier (the `for` loop), capped at 10x the
original and at half the account balance, then rounded to 2 decimals. -/
def calculateMartingaleStep (cfg : RiskConfig) (acct : AccountData)
    (originalAmount : ℚ) (currentStep : ℕ) : ℚ :=
  if cfg.martingaleEnabled = false then originalAmount
  else if cfg.maxMartingaleLevels ≤ currentStep then originalAmount
  else
    let martingaleAmount := originalAmount * cfg.martingaleMultiplier ^ currentStep
    let maxMartingaleAmount := originalAmount * 10
    let m1 := min martingaleAmount maxMartingaleAmount
    let m2 := if acct.balance * (1 / 2) < m1 then acct.balance * (1 / 2) else m1
    round2 m2

/-- Loop body of the legacy `getNextMartingaleStep(t, e)` in
`original-bot/web_accessible_resources.beautified.js` (lines 38-47): walk
the configured `martinSteps`, comparing the current-amount argument `e`
against the running value `s`; on a hit return the next escalated amount,
and after exhausting the table return `2 * e`. -/
def getNextMartingaleStepGo (e : ℚ) : List ℚ → ℚ → ℚ
  | [], _ => 2 * e
  | m :: rest, s =>
    if e = s then floor2 (s * m) else getNextMartingaleStepGo e rest (floor2 (m * s))

/-- Legacy `getNextMartingaleStep(t, e)`: `t` is the sequence's starting
amount, `e` the amount of the just-closed trade. -/
def getNextMartingaleStep (martinSteps : List ℚ) (t e : ℚ) : ℚ :=
  getNextMartingaleStepGo e martinSteps t

/-- The successive values of the running amount `s` during the
`getNextMartingaleStep` walk (one per configured multiplier). -/
def martingaleWalkValues : List ℚ → ℚ → List ℚ
  | [], _ => []
  | m :: rest, s => s :: martingaleWalkValues rest (floor2 (m * s))

/-- `pat` occurs at the start of `l` (character-list version of JS
`String.startsWith`). -/
def isPrefChars : List Char → List Char → Bool
  | [], _ => true
  | _ :: _, [] => false
  | a :: as, b :: bs => a = b && isPrefChars as bs

/-- `pat` occurs somewhere inside `l` (JS `String.includes`). -/
def hasInfChars (pat : List Char) : List Char → Bool
  | [] => isPrefChars pat []
  | c :: rest => isPrefChars pat (c :: rest) || hasInfChars pat rest

/-- JS `text.includes(pat)`. -/
def strContains (text pat : String) : Bool :=
  hasInfChars pat.toList text.toList

/-- `config` of `SignalAnalyzer` (part_000), restricted to the fields the
extraction and confidence paths read. -/
structure AnalyzerConfig where
  confidenceThreshold : ℚ
  minHistoricalSignals : ℕ
  signalKeywords : List String
  timeframes : List String
  assets : List String
  brokers : List String
  deriving DecidableEq

/-- The default `config` object of the `SignalAnalyzer` constructor. -/
def defaultAnalyzerConfig : AnalyzerConfig :=
  { confidenceThreshold := 70
    minHistoricalSignals := 10
    signalKeywords :=
      ["call", "put", "buy", "sell", "entry", "trade",
       "up", "down", "high", "low", "strike"]
    timeframes := ["1m", "5m", "15m", "30m", "1h", "4h", "1d"]
    assets := ["EUR/USD", "GBP/USD", "USD/JPY", "USD/CHF",
               "BTC/USD", "ETH/USD", "LTC/USD", "XRP/USD"]
    brokers := ["pocket_option", "quotex", "binomo", "iq_option"] }

/-- The raw JSON object returned by the AI model before validation
(`params` in `validateSignalParameters`); `null`/missing fields are
`none`. -/
structure RawParams where
  isSignal : Bool
  action : Option String
  asset : Option String
  timeframe : Option String
  expiration : Option ℚ
  confidence : Option ℚ
  broker : Option String
  constraints : Option (List (String × String))
  reasoning : Option String
  deriving DecidableEq

/-- The validated parameter set produced by `validateSignalParameters` and
`fallbackParameterExtraction`. -/
structure ValidatedParams where
  isSignal : Bool
  action : Option String
  asset : Option String
  timeframe : Option String
  expiration : Option ℚ
  confidence : ℚ
  broker : Option String
  constraints : List (String × String)
  reasoning : String
  deriving DecidableEq

/-- `SignalAnalyzer.validateSignalParameters` (part_000 lines 231-254):
clamp/filter each field against the supported enumerations (a JS-falsy
field — absent, empty string, or zero — fails its truthiness guard and
becomes `null`/`0`), then, when `isSignal` is false, null out `action`,
`asset`, `timeframe`, `expiration` and zero `confidence`.  The source does
NOT touch `broker` in that step. -/
def validateSignalParameters (cfg : AnalyzerConfig) (params : RawParams) :
    ValidatedParams :=
  let validated : ValidatedParams :=
    { isSignal := params.isSignal
      action :=
        match params.action with
        | some a => if ["CALL", "PUT"].contains a then some a else none
        | none => none
      asset :=
        match params.asset with
        | some a => if cfg.assets.contains a then some a else none
        | none => none
      timeframe :=
        match params.timeframe with
        | some tf => if cfg.timeframes.contains tf then some tf else none
        | none => none
      expiration :=
        match params.expiration with
        | some e => if e = 0 then none else some e
        | none => none
      confidence :=
        match params.confidence with
        | some c => if c = 0 then 0 else max 0 (min 100 c)
        | none => 0
      broker :=
        match params.broker with
        | some b => if cfg.brokers.contains b then some b else none
        | none => none
      constraints := params.constraints.getD []
      reasoning := params.reasoning.getD "" }
  if validated.isSignal = false then
    { validated with
        action := none, asset := none, timeframe := none,
        expiration := none, confidence := 0 }
  else
    validated

/-- Leading digit run of a character list, with the remainder. -/
def takeDigits : List Char → List Char × List Char
  | [] => ([], [])
  | c :: rest =>
    if c.isDigit then
      let p := takeDigits rest
      (c :: p.1, p.2)
    else ([], c :: rest)

/-- Drop leading spaces (the preprocessed `lowerText` has all whitespace
collapsed to single spaces, so `\s` is the space character here). -/
def dropSpaces : List Char → List Char
  | [] => []
  | c :: rest => if c = ' ' then dropSpaces rest else c :: rest

/-- JS `parseInt` on a digit run. -/
def digitsToNat (ds : List Char) : ℕ :=
  ds.foldl (fun n c => 10 * n + (c.toNat - 48)) 0

/-- The expiration scan of `fallbackParameterExtraction` (part_000 lines
307-320): the regex `(\d+)\s*(seconds?|secs?|s|minutes?|mins?|m|hours?|hrs?|h)`
finds the leftmost digit run followed (after optional spaces) by a unit
token; since every unit alternative begins with `s`, `m` or `h` and the
single letters are themselves alternatives, the match succeeds exactly when
the character after the spaces is `s`, `m` or `h`, and the conversion to
seconds depends only on that first character. -/
def parseExpirationAux : List Char → Option ℚ
  | [] => none
  | c :: rest =>
    if c.isDigit then
      let run := takeDigits (c :: rest)
      let value : ℚ := (digitsToNat run.1 : ℚ)
      match dropSpaces run.2 with
      | u :: _ =>
        if u = 's' then some value
        else if u = 'm' then some (value * 60)
        else if u = 'h' then some (value * 3600)
        else parseExpirationAux rest
      | [] => parseExpirationAux rest
    else parseExpirationAux rest

/-- `text.match(/(\d+)\s*(s…|m…|h…)/)` converted to seconds. -/
def parseExpiration (text : String) : Option ℚ :=
  parseExpirationAux text.toList

/-- The keyword test `this.config.signalKeywords.some(k => text.includes(k))`. -/
def hasSignalKeyword (cfg : AnalyzerConfig) (lowerText : String) : Bool :=
  cfg.signalKeywords.any fun k => strContains lowerText k

/-- `SignalAnalyzer.fallbackParameterExtraction` (part_000 lines 259-333),
acting on `processedSignal.lowerText`: keyword gate, keyword-polarity
action, first supported asset/timeframe found by substring scan, regex
expiration, fixed confidence 50. -/
def fallbackParameterExtraction (cfg : AnalyzerConfig) (lowerText : String) :
    ValidatedParams :=
  if hasSignalKeyword cfg lowerText = false then
    { isSignal := false, action := none, asset := none, timeframe := none,
      expiration := none, confidence := 0, broker := none, constraints := [],
      reasoning := "No signal keywords detected" }
  else
    let action :=
      if strContains lowerText "call" || strContains lowerText "buy" ||
          strContains lowerText "up" then some "CALL"
      else if strContains lowerText "put" || strContains lowerText "sell" ||
          strContains lowerText "down" then some "PUT"
      else none
    let asset := cfg.assets.find? fun a => strContains lowerText a.toLower
    let timeframe := cfg.timeframes.find? fun tf => strContains lowerText tf
    { isSignal := true, action := action, asset := asset,
      timeframe := timeframe, expiration := parseExpiration lowerText,
      confidence := 50, broker := none, constraints := [],
      reasoning := "Fallback parameter extraction due to AI failure" }

/-- Outcome of the AI-model leg of `extractSignalParameters`: the model may
be unset, the call may throw, return an empty `content`, return
unparseable JSON, or return a parsed object. -/
inductive AIOutcome where
  | unset : AIOutcome
  | threw : AIOutcome
  | noContent : AIOutcome
  | badJson : AIOutcome
  | parsed : RawParams → AIOutcome
  deriving DecidableEq

/-- `SignalAnalyzer.extractSignalParameters` (part_000 lines 178-226): when
`this.aiModel` is unset it throws "AI model not set" BEFORE the try/catch;
otherwise any failure of the call / JSON parse is caught and routed to
`fallbackParameterExtraction`, and a parsed response goes through
`validateSignalParameters`. -/
def extractSignalParameters (cfg : AnalyzerConfig) (o : AIOutcome)
    (lowerText : String) : Except String ValidatedParams :=
  match o with
  | .unset => .error "AI model not set"
  | .threw => .ok (fallbackParameterExtraction cfg lowerText)
  | .noContent => .ok (fallbackParameterExtraction cfg lowerText)
  | .badJson => .ok (fallbackParameterExtraction cfg lowerText)
  | .parsed params => .ok (validateSignalParameters cfg params)

/-- Per-channel record of `this.historicalData` read by
`getHistoricalPerformanceBonus` (a "successful" signal is one whose
analysis confidence met the threshold). -/
structure ChannelHist where
  signalsCount : ℕ
  successfulSignals : ℕ
  deriving DecidableEq

/-- `SignalAnalyzer.getHistoricalPerformanceBonus` (part_000 lines 386-398):
0 for an unknown channel (or null channel id) or one with fewer than
`minHistoricalSignals` recorded signals, otherwise `(winRate - 0.5) * 20`. -/
def getHistoricalPerformanceBonus (cfg : AnalyzerConfig)
    (hist : Option ChannelHist) : ℚ :=
  match hist with
  | none => 0
  | some h =>
    if h.signalsCount < cfg.minHistoricalSignals then 0
    else ((h.successfulSignals : ℚ) / (h.signalsCount : ℚ) - 1 / 2) * 20

/-- `SignalAnalyzer.calculateParameterCompleteness` (part_000 lines 366-381):
required fields `action`, `asset` weigh 0.6, optional fields `timeframe`,
`expiration`, `broker` weigh 0.4. -/
def calculateParameterCompleteness (p : ValidatedParams) : ℚ :=
  let requiredCount : ℚ :=
    (if p.action ≠ none then 1 else 0) + (if p.asset ≠ none then 1 else 0)
  let optionalCount : ℚ :=
    (if p.timeframe ≠ none then 1 else 0) + (if p.expiration ≠ none then 1 else 0)
      + (if p.broker ≠ none then 1 else 0)
  requiredCount / 2 * (6 / 10) + optionalCount / 3 * (4 / 10)

/-- `SignalAnalyzer.calculateSignalClarity` (part_000 lines 403-417): a
word-count bracket on the raw message text.  JS `text.split(' ').length`
is exactly one more than the number of space characters in `text` (every
space produces a boundary, empty segments included). -/
def calculateSignalClarity (text : String) : ℚ :=
  let words := (text.toList.countP fun c => c = ' ') + 1
  if words < 10 then 10
  else if words < 20 then 5
  else if words < 30 then 0
  else -5

/-- `SignalAnalyzer.calculateConfidence` (part_000 lines 338-361): 0 for a
non-signal; otherwise `signalParams.confidence || 50` (JS: a zero
confidence is falsy and falls back to 50) plus the completeness, historical
and clarity adjustments, clamped to [0,100] and rounded
(`Math.round` yields an integer, hence the `ℤ` result type). -/
def calculateConfidence (cfg : AnalyzerConfig) (hist : Option ChannelHist)
    (text : String) (signalParams : ValidatedParams) : ℤ :=
  if signalParams.isSignal = false then 0
  else
    let base := if signalParams.confidence = 0 then 50 else signalParams.confidence
    let c1 := base + calculateParameterCompleteness signalParams * 20
    let c2 := c1 + getHistoricalPerformanceBonus cfg hist
    let c3 := c2 + calculateSignalClarity text
    jround (max 0 (min 100 c3))


theorem ite_lt_eq_min (a b : ℚ) : (if b < a then b else a) = min a b := by
  split
  · exact (min_eq_right (le_of_lt (by assumption))).symm
  · exact (min_eq_left (le_of_not_lt (by assumption))).symm

theorem getNextMartingaleStepGo_not_found (e : ℚ) :
    ∀ (steps : List ℚ) (s : ℚ), e ∉ martingaleWalkValues steps s →
      getNextMartingaleStepGo e steps s = 2 * e := by
  intro steps
  induction steps with
  | nil => intro s _; rfl
  | cons m rest ih =>
    intro s hs
    rw [martingaleWalkValues] at hs
    simp only [List.mem_cons, not_or] at hs
    rw [getNextMartingaleStepGo, if_neg hs.1]
    exact ih _ hs.2

/-- C2: the claim said the out-of-range martingale fallback returns
`2 * baseAmount`.  It does not: `RiskManager.calculateMartingaleStep`
returns exactly the original base amount once `currentStep` reaches
`maxMartingaleLevels`, and the legacy `getNextMartingaleStep` falls back to
twice its CURRENT-amount argument `e` (not the base `t`) when `e` is not
found along the multiplier walk. -/
theorem martingale_out_of_range_amended :
    (∀ (cfg : RiskConfig) (acct : AccountData) (originalAmount : ℚ) (currentStep : ℕ),
      cfg.maxMartingaleLevels ≤ currentStep →
      calculateMartingaleStep cfg acct originalAmount currentStep = originalAmount) ∧
    (∀ (steps : List ℚ) (t e : ℚ), e ∉ martingaleWalkValues steps t →
      getNextMartingaleStep steps t e = 2 * e) := by
  constructor
  · intro cfg acct originalAmount currentStep h
    unfold calculateMartingaleStep
    rcases Bool.eq_false_or_eq_true cfg.martingaleEnabled with hEn | hEn <;>
      simp [hEn, h]
  · intro steps t e h
    exact getNextMartingaleStepGo_not_found e steps t h

theorem martingale_out_of_range_amended_witness :
    calculateMartingaleStep defaultRiskConfig
      { balance := 1000, dailyPL := 0, dailyTrades := 0, maxDailyBalance := 1000, lastReset := 0 }
      10 5 = 10 ∧
    getNextMartingaleStep [] 3 7 = 2 * 7 := by
  constructor
  · exact martingale_out_of_range_amended.1 defaultRiskConfig
      { balance := 1000, dailyPL := 0, dailyTrades := 0, maxDailyBalance := 1000, lastReset := 0 }
      10 5 (by norm_num [defaultRiskConfig])
  · exact martingale_out_of_range_amended.2 [] 3 7 (by simp [martingaleWalkValues])

/-- C2 counterexample: with the default configuration (`maxMartingaleLevels
= 5`), a step index of 5 returns the base amount 10, not `2 * 10` as the
claim states. -/
theorem martingale_out_of_range_counterexample :
    calculateMartingaleStep defaultRiskConfig
      { balance := 1000, dailyPL := 0, dailyTrades := 0, maxDailyBalance := 1000, lastReset := 0 }
      10 5 = 10 ∧ (10 : ℚ) ≠ 2 * 10 := by
  constructor
  · unfold calculateMartingaleStep
    norm_num [defaultRiskConfig]
  · norm_num

/-- C9: `resetDailyMetrics` on a rollover zeroes exactly `dailyPL` and
`dailyTrades` and stamps `lastReset`; `balance`, the `maxDailyBalance`
high-water mark and the open-trade set are untouched, and with no rollover
due the state is returned unchanged. -/
theorem daily_reset_frame (now : ℤ) (st : RiskState) :
    (24 * 60 * 60 * 1000 < now - st.accountData.lastReset →
      (resetDailyMetricsState now st).accountData.dailyPL = 0 ∧
      (resetDailyMetricsState now st).accountData.dailyTrades = 0 ∧
      (resetDailyMetricsState now st).accountData.lastReset = now ∧
      (resetDailyMetricsState now st).accountData.balance = st.accountData.balance ∧
      (resetDailyMetricsState now st).accountData.maxDailyBalance
        = st.accountData.maxDailyBalance ∧
      (resetDailyMetricsState now st).activeTrades = st.activeTrades) ∧
    (¬ 24 * 60 * 60 * 1000 < now - st.accountData.lastReset →
      resetDailyMetricsState now st = st) := by
  constructor
  · intro h
    unfold resetDailyMetricsState resetDailyMetrics
    rw [if_pos h]
    simp
  · intro h
    unfold resetDailyMetricsState resetDailyMetrics
    rw [if_neg h]

theorem daily_reset_frame_witness :
    (resetDailyMetricsState 86400001
        { accountData :=
            { balance := 100, dailyPL := -5, dailyTrades := 3,
              maxDailyBalance := 120, lastReset := 0 },
          activeTrades := [1, 2] }).accountData.dailyPL = 0 ∧
    (resetDailyMetricsState 86400001
        { accountData :=
            { balance := 100, dailyPL := -5, dailyTrades := 3,
              maxDailyBalance := 120, lastReset := 0 },
          activeTrades := [1, 2] }).accountData.maxDailyBalance = 120 ∧
    (resetDailyMetricsState 86400001
        { accountData :=
            { balance := 100, dailyPL := -5, dailyTrades := 3,
              maxDailyBalance := 120, lastReset := 0 },
          activeTrades := [1, 2] }).activeTrades = [1, 2] := by
  have h := (daily_reset_frame 86400001
    { accountData :=
        { balance := 100, dailyPL := -5, dailyTrades := 3,
          maxDailyBalance := 120, lastReset := 0 },
      activeTrades := [1, 2] }).1 (by norm_num)
  exact ⟨h.1, h.2.2.2.2.1, h.2.2.2.2.2⟩

theorem resetDailyMetrics_balance (now : ℤ) (a : AccountData) :
    (resetDailyMetrics now a).balance = a.balance := by
  unfold resetDailyMetrics
  split <;> rfl

/-- C5: an order that fails parameter validation is rejected by
`assessTradeRisk` with the validation reason even when the account balance
is also insufficient — the first failing check of the linear checklist
provides the reason, and it is never the balance reason. -/
theorem gate_first_check_wins (cfg : RiskConfig) (acct : AccountData)
    (activeTradeCount : ℕ) (tradeHistory : List ℚ) (now : ℤ)
    (p : TradeParams) (ctx : TradeContext) (r : String)
    (hv : validateTradeParams cfg p = some r) (hb : acct.balance ≤ 0) :
    assessTradeRisk cfg acct activeTradeCount tradeHistory now p ctx =
      { approved := false, reason := some r, positionSize := none } ∧
    r ≠ "Insufficient account balance" := by
  constructor
  · unfold assessTradeRisk
    rw [hv]
  · unfold validateTradeParams at hv
    split at hv
    · rw [Option.some.injEq] at hv
      subst hv
      decide
    · split at hv
      · rw [Option.some.injEq] at hv
        subst hv
        decide
      · split at hv
        · rw [Option.some.injEq] at hv
          subst hv
          decide
        · split at hv
          · rw [Option.some.injEq] at hv
            subst hv
            intro hEq
            have hlen := congrArg String.length hEq
            rw [String.length_append] at hlen
            have h1 : ("Trade amount exceeds maximum of ").length = 32 := by decide
            have h2 : ("Insufficient account balance").length = 28 := by decide
            rw [h1, h2] at hlen
            omega
          · exact absurd hv (by simp)

theorem gate_first_check_wins_witness :
    assessTradeRisk defaultRiskConfig
      { balance := 0, dailyPL := 0, dailyTrades := 0, maxDailyBalance := 0, lastReset := 0 }
      0 [] 0
      { action := none, asset := none, amount := 10 }
      { confidence := none, volatility := none } =
      { approved := false, reason := some "Invalid or missing action parameter",
        positionSize := none } ∧
    "Invalid or missing action parameter" ≠ "Insufficient account balance" := by
  have h := gate_first_check_wins defaultRiskConfig
    { balance := 0, dailyPL := 0, dailyTrades := 0, maxDailyBalance := 0, lastReset := 0 }
    0 [] 0
    { action := none, asset := none, amount := 10 }
    { confidence := none, volatility := none }
    "Invalid or missing action parameter"
    (by unfold validateTradeParams; simp)
    (by norm_num)
  exact h

/-- C4 (amended): with a non-positive account balance the position-sizing
routine still returns a positive stake — the 1-unit minimum floor — but
`assessTradeRisk` nevertheless rejects every candidate order under that
balance. -/
theorem balance_gate_amended (cfg : RiskConfig) (acct : AccountData)
    (activeTradeCount : ℕ) (tradeHistory : List ℚ) (now : ℤ)
    (p : TradeParams) (ctx : TradeContext) (hb : acct.balance ≤ 0) :
    (assessTradeRisk cfg acct activeTradeCount tradeHistory now p ctx).approved = false ∧
    0 < calculatePositionSize cfg acct p ctx := by
  constructor
  · unfold assessTradeRisk
    cases hv : validateTradeParams cfg p with
    | some r => rfl
    | none =>
      have hb2 : (resetDailyMetrics now acct).balance ≤ 0 := by
        rw [resetDailyMetrics_balance]; exact hb
      have hca : checkAccountLimits (resetDailyMetrics now acct)
          (calculatePositionSize cfg (resetDailyMetrics now acct) p ctx) =
          some "Insufficient account balance" := by
        unfold checkAccountLimits
        rw [if_pos hb2]
      simp only [hca]
  · calc (0 : ℚ) < 1 := one_pos
      _ ≤ calculatePositionSize cfg acct p ctx := by
        unfold calculatePositionSize
        exact le_max_left _ _

theorem balance_gate_amended_witness :
    (assessTradeRisk defaultRiskConfig
      { balance := 0, dailyPL := 0, dailyTrades := 0, maxDailyBalance := 0, lastReset := 0 }
      0 [] 0
      { action := some "CALL", asset := some "EUR/USD", amount := 10 }
      { confidence := none, volatility := none }).approved = false ∧
    0 < calculatePositionSize defaultRiskConfig
      { balance := 0, dailyPL := 0, dailyTrades := 0, maxDailyBalance := 0, lastReset := 0 }
      { action := some "CALL", asset := some "EUR/USD", amount := 10 }
      { confidence := none, volatility := none } :=
  balance_gate_amended defaultRiskConfig
    { balance := 0, dailyPL := 0, dailyTrades := 0, maxDailyBalance := 0, lastReset := 0 }
    0 [] 0
    { action := some "CALL", asset := some "EUR/USD", amount := 10 }
    { confidence := none, volatility := none }
    (by norm_num)

/-- C1 (amended): with no volatility adjustment, the stake from
`calculatePositionSize` is bounded by the larger of the 1-unit minimum
stake and the 2-decimal rounding of the tighter of the two percentage
ceilings.  The absolute `maxTradeAmount` ceiling is NOT applied by this
routine (see the counterexample), and the 1-unit floor can exceed the
percentage ceilings on a small balance. -/
theorem sizing_ceilings_amended (cfg : RiskConfig) (acct : AccountData)
    (p : TradeParams) (c : ℚ) (hc0 : 0 ≤ c) (hc1 : c ≤ 100) (ha : 0 < p.amount) :
    calculatePositionSize cfg acct p { confidence := some c, volatility := none } ≤
      max 1 (round2 (min (cfg.maxRiskPerTrade / 100 * acct.balance)
        (cfg.accountRiskLimit / 100 * acct.balance))) := by
  unfold calculatePositionSize
  dsimp only
  rw [ite_lt_eq_min, ite_lt_eq_min]
  refine max_le_max (le_refl 1) (round2_mono ?_)
  exact min_le_min (min_le_right _ _) (le_refl _)

theorem sizing_ceilings_amended_witness :
    calculatePositionSize defaultRiskConfig
      { balance := 100000, dailyPL := 0, dailyTrades := 0, maxDailyBalance := 100000, lastReset := 0 }
      { action := some "CALL", asset := some "EUR/USD", amount := 200 }
      { confidence := some 100, volatility := none } ≤
      max 1 (round2 (min (defaultRiskConfig.maxRiskPerTrade / 100 * (100000 : ℚ))
        (defaultRiskConfig.accountRiskLimit / 100 * (100000 : ℚ)))) :=
  sizing_ceilings_amended defaultRiskConfig
    { balance := 100000, dailyPL := 0, dailyTrades := 0, maxDailyBalance := 100000, lastReset := 0 }
    { action := some "CALL", asset := some "EUR/USD", amount := 200 }
    100 (by norm_num) (by norm_num) (by norm_num)

/-- C1 counterexample: with the default configuration (`maxTradeAmount =
50`), an order of amount 200 at confidence 100 on a 100000 balance is sized
to 200, which exceeds `min(maxTradeAmount, maxRiskPerTrade% * balance,
accountRiskLimit% * balance) = 50`. -/
theorem sizing_ceilings_counterexample :
    calculatePositionSize defaultRiskConfig
      { balance := 100000, dailyPL := 0, dailyTrades := 0, maxDailyBalance := 100000, lastReset := 0 }
      { action := some "CALL", asset := some "EUR/USD", amount := 200 }
      { confidence := some 100, volatility := none } = 200 ∧
    ¬ ((200 : ℚ) ≤ min defaultRiskConfig.maxTradeAmount
        (min (defaultRiskConfig.maxRiskPerTrade / 100 * (100000 : ℚ))
          (defaultRiskConfig.accountRiskLimit / 100 * (100000 : ℚ)))) := by
  have h200 : round2 (200 : ℚ) = 200 := by
    rw [round2_eq 20000 (by norm_num) (by norm_num)]
    norm_num
  constructor
  · unfold calculatePositionSize
    dsimp only
    norm_num [defaultRiskConfig, min_def, max_def]
    rw [h200]
    norm_num
  · norm_num [defaultRiskConfig, min_def]

/-- C3 (amended): for martingale enabled and `N < maxMartingaleLevels`, the
recovery stake is exactly `round2(min(baseAmount * multiplier^N,
10 * baseAmount, 50% * balance))`; it equals the rounded cumulative product
`baseAmount * multiplier^N` only when neither the 10x cap nor the
half-balance cap binds. -/
theorem martingale_escalation_amended (cfg : RiskConfig) (acct : AccountData)
    (base : ℚ) (N : ℕ) (hEn : cfg.martingaleEnabled = true)
    (hN : N < cfg.maxMartingaleLevels) :
    calculateMartingaleStep cfg acct base N =
      round2 (min (min (base * cfg.martingaleMultiplier ^ N) (base * 10))
        (acct.balance * (1 / 2))) ∧
    (base * cfg.martingaleMultiplier ^ N ≤ base * 10 →
      base * cfg.martingaleMultiplier ^ N ≤ acct.balance * (1 / 2) →
      calculateMartingaleStep cfg acct base N =
        round2 (base * cfg.martingaleMultiplier ^ N)) := by
  have key : calculateMartingaleStep cfg acct base N =
      round2 (min (min (base * cfg.martingaleMultiplier ^ N) (base * 10))
        (acct.balance * (1 / 2))) := by
    unfold calculateMartingaleStep
    rw [if_neg (by simp [hEn]), if_neg (not_le.mpr hN)]
    dsimp only
    rw [ite_lt_eq_min]
  constructor
  · exact key
  · intro h1 h2
    rw [key, min_eq_left h1, min_eq_left h2]

theorem martingale_escalation_amended_witness :
    calculateMartingaleStep defaultRiskConfig
      { balance := 1000, dailyPL := 0, dailyTrades := 0, maxDailyBalance := 1000, lastReset := 0 }
      10 3 =
      round2 (10 * defaultRiskConfig.martingaleMultiplier ^ 3) :=
  (martingale_escalation_amended defaultRiskConfig
    { balance := 1000, dailyPL := 0, dailyTrades := 0, maxDailyBalance := 1000, lastReset := 0 }
    10 3 (by rfl) (by norm_num [defaultRiskConfig])).2
    (by norm_num [defaultRiskConfig]) (by norm_num [defaultRiskConfig])

/-- C3 counterexample: base 10, three prior losses, balance 10 — the code
caps the stake at half the balance, yielding 5, which differs from the
claimed cumulative product `10 * 2^3 = 80` by far more than any 2-decimal
rounding tolerance (and the claim's two conjuncts are contradictory here). -/
theorem martingale_escalation_counterexample :
    calculateMartingaleStep defaultRiskConfig
      { balance := 10, dailyPL := 0, dailyTrades := 0, maxDailyBalance := 10, lastReset := 0 }
      10 3 = 5 ∧
    (5 : ℚ) + 1 / 100 < 10 * defaultRiskConfig.martingaleMultiplier ^ 3 := by
  have h5 : round2 (5 : ℚ) = 5 := by
    rw [round2_eq 500 (by norm_num) (by norm_num)]
    norm_num
  constructor
  · unfold calculateMartingaleStep
    norm_num [defaultRiskConfig, min_def]
    rw [h5]
  · norm_num [defaultRiskConfig]

theorem calculatePositionSize_eval_c10 (dpl : ℚ) (n : ℕ) :
    calculatePositionSize defaultRiskConfig
      { balance := 100, dailyPL := dpl, dailyTrades := n, maxDailyBalance := 100, lastReset := 0 }
      { action := some "CALL", asset := some "EUR/USD", amount := 10 }
      { confidence := none, volatility := none } = 2 := by
  have h2 : round2 (2 : ℚ) = 2 := by
    rw [round2_eq 200 (by norm_num) (by norm_num)]
    norm_num
  unfold calculatePositionSize
  dsimp only
  norm_num [defaultRiskConfig, max_def]
  rw [h2]
  norm_num

theorem validateTradeParams_eval_c10 :
    validateTradeParams defaultRiskConfig
      { action := some "CALL", asset := some "EUR/USD", amount := 10 } = none := by
  unfold validateTradeParams
  rw [if_neg (not_not_intro (Or.inl rfl))]
  rw [if_neg (by simp : ¬((some "EUR/USD" : Option String) = none))]
  rw [if_neg (by norm_num : ¬((10 : ℚ) ≤ 0))]
  rw [if_neg (by norm_num [defaultRiskConfig] : ¬(defaultRiskConfig.maxTradeAmount < (10 : ℚ)))]

/-- C10 (amended): for a valid order that passes the balance check, when no
24h rollover resets the counters AND the daily-loss limit has not been
breached (that check precedes the trade-count check), a daily trade count
of at least 50 makes `assessTradeRisk` reject with reason "Daily trade
limit reached"; the theorem quantifies over every configuration, so the
50-trade cap is independent of any configuration field. -/
theorem daily_trade_limit_amended (cfg : RiskConfig) (acct : AccountData)
    (activeTradeCount : ℕ) (tradeHistory : List ℚ) (now : ℤ)
    (p : TradeParams) (ctx : TradeContext)
    (hroll : ¬ 24 * 60 * 60 * 1000 < now - acct.lastReset)
    (hv : validateTradeParams cfg p = none)
    (hbal : 0 < acct.balance)
    (hps : calculatePositionSize cfg acct p ctx ≤ acct.balance)
    (hloss : ¬ acct.dailyPL < -(cfg.maxDailyLoss / 100 * acct.maxDailyBalance))
    (htc : 50 ≤ acct.dailyTrades) :
    assessTradeRisk cfg acct activeTradeCount tradeHistory now p ctx =
      { approved := false, reason := some "Daily trade limit reached",
        positionSize := none } := by
  have ha : resetDailyMetrics now acct = acct := by
    unfold resetDailyMetrics
    exact if_neg hroll
  have hca : checkAccountLimits acct (calculatePositionSize cfg acct p ctx) = none := by
    unfold checkAccountLimits
    rw [if_neg (not_le.mpr hbal), if_neg (not_lt.mpr hps)]
  have hdl : checkDailyLimits cfg acct = some "Daily trade limit reached" := by
    unfold checkDailyLimits
    dsimp only
    rw [if_neg hloss, if_pos htc]
  unfold assessTradeRisk
  rw [ha, hv]
  dsimp only
  rw [hca]
  dsimp only
  rw [hdl]

theorem daily_trade_limit_amended_witness :
    assessTradeRisk defaultRiskConfig
      { balance := 100, dailyPL := 0, dailyTrades := 50, maxDailyBalance := 100, lastReset := 0 }
      0 [] 0
      { action := some "CALL", asset := some "EUR/USD", amount := 10 }
      { confidence := none, volatility := none } =
      { approved := false, reason := some "Daily trade limit reached",
        positionSize := none } :=
  daily_trade_limit_amended defaultRiskConfig
    { balance := 100, dailyPL := 0, dailyTrades := 50, maxDailyBalance := 100, lastReset := 0 }
    0 [] 0
    { action := some "CALL", asset := some "EUR/USD", amount := 10 }
    { confidence := none, volatility := none }
    (by norm_num)
    validateTradeParams_eval_c10
    (by norm_num)
    (by rw [calculatePositionSize_eval_c10]; norm_num)
    (by norm_num [defaultRiskConfig])
    (by norm_num)

/-- C10 counterexample: a valid order passing the balance check with
`dailyTrades = 50` but a daily P/L already past the loss limit is rejected
with "Daily loss limit reached", not the claimed "Daily trade limit
reached". -/
theorem daily_trade_limit_counterexample :
    assessTradeRisk defaultRiskConfig
      { balance := 100, dailyPL := -1000, dailyTrades := 50, maxDailyBalance := 100, lastReset := 0 }
      0 [] 0
      { action := some "CALL", asset := some "EUR/USD", amount := 10 }
      { confidence := none, volatility := none } =
      { approved := false, reason := some "Daily loss limit reached",
        positionSize := none } ∧
    some "Daily loss limit reached" ≠ some "Daily trade limit reached" := by
  constructor
  · have ha : resetDailyMetrics 0
        { balance := 100, dailyPL := -1000, dailyTrades := 50, maxDailyBalance := 100, lastReset := 0 } =
        { balance := 100, dailyPL := -1000, dailyTrades := 50, maxDailyBalance := 100, lastReset := 0 } := by
      unfold resetDailyMetrics
      norm_num
    have hv := validateTradeParams_eval_c10
    have hca : checkAccountLimits
        { balance := 100, dailyPL := -1000, dailyTrades := 50, maxDailyBalance := 100, lastReset := 0 }
        (calculatePositionSize defaultRiskConfig
          { balance := 100, dailyPL := -1000, dailyTrades := 50, maxDailyBalance := 100, lastReset := 0 }
          { action := some "CALL", asset := some "EUR/USD", amount := 10 }
          { confidence := none, volatility := none }) = none := by
      rw [calculatePositionSize_eval_c10]
      unfold checkAccountLimits
      norm_num
    have hdl : checkDailyLimits defaultRiskConfig
        { balance := 100, dailyPL := -1000, dailyTrades := 50, maxDailyBalance := 100, lastReset := 0 } =
        some "Daily loss limit reached" := by
      unfold checkDailyLimits
      norm_num [defaultRiskConfig]
    unfold assessTradeRisk
    rw [ha, hv]
    dsimp only
    rw [hca]
    dsimp only
    rw [hdl]
  · simp

theorem jround_clamp_bounds (x : ℚ) :
    0 ≤ jround (max 0 (min 100 x)) ∧ jround (max 0 (min 100 x)) ≤ 100 := by
  have h0 : (0 : ℚ) ≤ max 0 (min 100 x) := le_max_left _ _
  have h100 : max 0 (min 100 x) ≤ 100 := max_le (by norm_num) (min_le_left _ _)
  constructor
  · unfold jround
    exact Int.le_floor.mpr (by push_cast; linarith)
  · have hlt : jround (max 0 (min 100 x)) < 101 := by
      unfold jround
      apply Int.floor_lt.mpr
      push_cast
      linarith
    omega

/-- C8 (amended): when the model reports `isSignal = false`, validation
forces `action`, `asset`, `timeframe`, `expiration` to null and
`confidence` to 0, whatever the model returned for those fields.  (`broker`
is NOT nulled — see the counterexample.) -/
theorem nonsignal_nulling_amended (cfg : AnalyzerConfig) (params : RawParams)
    (h : params.isSignal = false) :
    (validateSignalParameters cfg params).action = none ∧
    (validateSignalParameters cfg params).asset = none ∧
    (validateSignalParameters cfg params).timeframe = none ∧
    (validateSignalParameters cfg params).expiration = none ∧
    (validateSignalParameters cfg params).confidence = 0 := by
  simp [validateSignalParameters, h]

theorem nonsignal_nulling_amended_witness :
    (validateSignalParameters defaultAnalyzerConfig
      { isSignal := false, action := some "CALL", asset := some "EUR/USD",
        timeframe := some "5m", expiration := some 300, confidence := some 90,
        broker := some "pocket_option", constraints := none, reasoning := none }).action
      = none ∧
    (validateSignalParameters defaultAnalyzerConfig
      { isSignal := false, action := some "CALL", asset := some "EUR/USD",
        timeframe := some "5m", expiration := some 300, confidence := some 90,
        broker := some "pocket_option", constraints := none, reasoning := none }).confidence
      = 0 := by
  have h := nonsignal_nulling_amended defaultAnalyzerConfig
    { isSignal := false, action := some "CALL", asset := some "EUR/USD",
      timeframe := some "5m", expiration := some 300, confidence := some 90,
      broker := some "pocket_option", constraints := none, reasoning := none }
    rfl
  exact ⟨h.1, h.2.2.2.2⟩

/-- C8 counterexample: for a non-signal raw object carrying a supported
broker, validation KEEPS `broker = "pocket_option"` instead of forcing it
to null as the claim states. -/
theorem nonsignal_nulling_counterexample :
    (validateSignalParameters defaultAnalyzerConfig
      { isSignal := false, action := some "CALL", asset := some "EUR/USD",
        timeframe := some "5m", expiration := some 300, confidence := some 90,
        broker := some "pocket_option", constraints := none, reasoning := none }).broker
      = some "pocket_option" ∧
    (some "pocket_option" : Option String) ≠ none := by
  constructor
  · simp [validateSignalParameters, defaultAnalyzerConfig]
  · simp

/-- C6 (amended): when the AI model call fails (throws, returns no content,
or returns invalid JSON) the extraction never throws — it returns the
deterministic keyword-and-regex fallback, whose confidence is fixed at 50
and whose reasoning marks the fallback whenever the message contains a
signal keyword.  When the AI model is UNSET, however,
`extractSignalParameters` throws "AI model not set" (see the
counterexample). -/
theorem extraction_fallback_amended (cfg : AnalyzerConfig) (o : AIOutcome)
    (lowerText : String)
    (ho : o = AIOutcome.threw ∨ o = AIOutcome.noContent ∨ o = AIOutcome.badJson) :
    extractSignalParameters cfg o lowerText =
      Except.ok (fallbackParameterExtraction cfg lowerText) ∧
    (hasSignalKeyword cfg lowerText = true →
      (fallbackParameterExtraction cfg lowerText).confidence = 50 ∧
      (fallbackParameterExtraction cfg lowerText).reasoning =
        "Fallback parameter extraction due to AI failure") := by
  constructor
  · rcases ho with h | h | h <;> rw [h] <;> rfl
  · intro hk
    simp [fallbackParameterExtraction, hk]

theorem extraction_fallback_amended_witness :
    extractSignalParameters defaultAnalyzerConfig AIOutcome.threw "call" =
      Except.ok (fallbackParameterExtraction defaultAnalyzerConfig "call") ∧
    (fallbackParameterExtraction defaultAnalyzerConfig "call").confidence = 50 ∧
    (fallbackParameterExtraction defaultAnalyzerConfig "call").reasoning =
      "Fallback parameter extraction due to AI failure" := by
  have h := extraction_fallback_amended defaultAnalyzerConfig AIOutcome.threw "call"
    (Or.inl rfl)
  exact ⟨h.1, h.2 (by decide)⟩

/-- C6 counterexample: with the AI model unavailable (not set), extraction
throws instead of returning the fallback result. -/
theorem extraction_fallback_counterexample :
    extractSignalParameters defaultAnalyzerConfig AIOutcome.unset "call eur/usd now" =
      Except.error "AI model not set" ∧
    extractSignalParameters defaultAnalyzerConfig AIOutcome.unset "call eur/usd now" ≠
      Except.ok (fallbackParameterExtraction defaultAnalyzerConfig "call eur/usd now") := by
  constructor
  · rfl
  · simp [extractSignalParameters]

/-- C7 (amended): the blended confidence is always an integer (the `ℤ`
result of `Math.round`) in [0,100]; for parameter sets with `isSignal =
true` it equals the rounded clamp of base + completeness bonus +
historical bonus + clarity adjustment, where the base is the extractor
confidence when nonzero and 50 otherwise (JS `confidence || 50`).  For
`isSignal = false` the returned confidence is 0 (see the counterexample). -/
theorem confidence_bounds_amended (cfg : AnalyzerConfig) (hist : Option ChannelHist)
    (text : String) (p : ValidatedParams) :
    0 ≤ calculateConfidence cfg hist text p ∧
    calculateConfidence cfg hist text p ≤ 100 ∧
    (p.isSignal = true →
      calculateConfidence cfg hist text p =
        jround (max 0 (min 100
          ((if p.confidence = 0 then 50 else p.confidence) +
            calculateParameterCompleteness p * 20 +
            getHistoricalPerformanceBonus cfg hist +
            calculateSignalClarity text)))) := by
  unfold calculateConfidence
  rcases Bool.eq_false_or_eq_true p.isSignal with h | h
  · rw [h]
    rw [if_neg (by simp)]
    dsimp only
    exact ⟨(jround_clamp_bounds _).1, (jround_clamp_bounds _).2, fun _ => rfl⟩
  · rw [h]
    rw [if_pos rfl]
    refine ⟨le_refl 0, by norm_num, ?_⟩
    intro habs
    exact absurd habs (by simp)

theorem confidence_bounds_amended_witness :
    0 ≤ calculateConfidence defaultAnalyzerConfig none "EUR/USD CALL 5m"
      { isSignal := true, action := some "CALL", asset := some "EUR/USD",
        timeframe := some "5m", expiration := some 300, confidence := 85,
        broker := none, constraints := [], reasoning := "" } ∧
    calculateConfidence defaultAnalyzerConfig none "EUR/USD CALL 5m"
      { isSignal := true, action := some "CALL", asset := some "EUR/USD",
        timeframe := some "5m", expiration := some 300, confidence := 85,
        broker := none, constraints := [], reasoning := "" } ≤ 100 ∧
    calculateConfidence defaultAnalyzerConfig none "EUR/USD CALL 5m"
      { isSignal := true, action := some "CALL", asset := some "EUR/USD",
        timeframe := some "5m", expiration := some 300, confidence := 85,
        broker := none, constraints := [], reasoning := "" } =
      jround (max 0 (min 100
        ((if (85 : ℚ) = 0 then 50 else 85) +
          calculateParameterCompleteness
            { isSignal := true, action := some "CALL", asset := some "EUR/USD",
              timeframe := some "5m", expiration := some 300, confidence := 85,
              broker := none, constraints := [], reasoning := "" } * 20 +
          getHistoricalPerformanceBonus defaultAnalyzerConfig none +
          calculateSignalClarity "EUR/USD CALL 5m"))) := by
  have h := confidence_bounds_amended defaultAnalyzerConfig none "EUR/USD CALL 5m"
    { isSignal := true, action := some "CALL", asset := some "EUR/USD",
      timeframe := some "5m", expiration := some 300, confidence := 85,
      broker := none, constraints := [], reasoning := "" }
  exact ⟨h.1, h.2.1, h.2.2 rfl⟩

/-- The non-signal parameter set used by the C7 counterexample. -/
def c7params : ValidatedParams :=
  { isSignal := false, action := none, asset := none, timeframe := none,
    expiration := none, confidence := 0, broker := none, constraints := [],
    reasoning := "" }

/-- C7 counterexample: for a non-signal parameter set the code returns 0,
while the claimed clamp-and-round formula evaluates to 60 on the same
input (base 50, no bonuses, +10 clarity for a 1-word message). -/
theorem confidence_formula_counterexample :
    calculateConfidence defaultAnalyzerConfig none "hi" c7params = 0 ∧
    jround (max 0 (min 100
      ((if c7params.confidence = 0 then 50 else c7params.confidence) +
        calculateParameterCompleteness c7params * 20 +
        getHistoricalPerformanceBonus defaultAnalyzerConfig none +
        calculateSignalClarity "hi"))) = 60 ∧
    (0 : ℤ) ≠ 60 := by
  refine ⟨rfl, ?_, by omega⟩
  have hcomp : calculateParameterCompleteness c7params = 0 := by
    simp [calculateParameterCompleteness, c7params]
  have hw : ("hi".toList.countP fun c => c = ' ') = 0 := by decide
  have hclar : calculateSignalClarity "hi" = 10 := by
    unfold calculateSignalClarity
    rw [hw]
    norm_num
  have hbonus : getHistoricalPerformanceBonus defaultAnalyzerConfig none = 0 := rfl
  have hconf : c7params.confidence = 0 := rfl
  rw [hcomp, hclar, hbonus, hconf]
  have hj : jround (60 : ℚ) = 60 := jround_eq_iff.mpr (by norm_num)
  rw [show ((if (0 : ℚ) = 0 then 50 else 0) + 0 * 20 + 0 + 10 : ℚ) = 60 by norm_num]
  rw [show (min (100 : ℚ) 60) = 60 by norm_num [min_def]]
  rw [show (max (0 : ℚ) 60) = 60 by norm_num [max_def]]
  exact hj

/-- C4 counterexample: with a zero account balance the sizing routine still
returns the positive minimum stake 1, contradicting the claim that sizing
produces no positive stake under a non-positive balance. -/
theorem balance_gate_counterexample :
    calculatePositionSize defaultRiskConfig
      { balance := 0, dailyPL := 0, dailyTrades := 0, maxDailyBalance := 0, lastReset := 0 }
      { action := some "CALL", asset := some "EUR/USD", amount := 10 }
      { confidence := none, volatility := none } = 1 ∧
    (0 : ℚ) < 1 := by
  have h0 : round2 (0 : ℚ) = 0 := by
    rw [round2_eq 0 (by norm_num) (by norm_num)]
    norm_num
  constructor
  · unfold calculatePositionSize
    dsimp only
    norm_num [defaultRiskConfig, max_def]
    rw [h0]
    norm_num
  · norm_num
